import Mathlib

/-!
Shallow embedding of the `sqlx-core` pool configuration surface
(`src/sqlx-core/src/pool/options.rs`) and of the prepared-statement
metadata descriptor (`src/sqlx-core/src/statement.rs`), with theorems
checking the natural-language specification against the code.

Conventions of the embedding:
* Rust `std::time::Duration` (seconds + nanoseconds) becomes the `Duration`
  structure below.
* Rust `u32` fields hold only stored values here (no arithmetic is ever
  performed on them in the embedded code), so they are embedded as `Nat`.
* Rust `Vec<T>` becomes `List T`, `Option<T>` becomes `Option T`, and
  `Either<L, R>` becomes `Sum L R`.
* A Rust function that can panic is embedded as an `Option`-returning
  function where `none` models the panic.
* The pieces of the repository that `Builder::build` calls but that are not
  part of the two source files (`SharedPool::new_arc` in `pool/inner.rs`)
  are modelled from the specification; each such definition says so in its
  doc comment.
-/

set_option autoImplicit false

/-- Embedding of Rust `std::time::Duration`: seconds plus sub-second
nanoseconds. -/
structure Duration where
  secs : Nat
  nanos : Nat
deriving DecidableEq, Repr

/-- Embedding of `Duration::from_secs`. -/
def Duration.from_secs (n : Nat) : Duration :=
  { secs := n, nanos := 0 }

/-- Total length of a `Duration` in nanoseconds, used when durations are
compared against an elapsed-time budget. -/
def Duration.toNanos (d : Duration) : Nat :=
  d.secs * 1000000000 + d.nanos

/-- Embedding of `Options` (src/sqlx-core/src/pool/options.rs): the
immutable pool configuration record. -/
structure Options where
  max_size : Nat
  connect_timeout : Duration
  min_size : Nat
  max_lifetime : Option Duration
  idle_timeout : Option Duration
  test_on_acquire : Bool
  fair : Bool
deriving DecidableEq, Repr

/-- Embedding of `Builder<DB>` (src/sqlx-core/src/pool/options.rs). The
`PhantomData<DB>` field carries no data and is dropped; only the `options`
field remains. -/
structure Builder where
  options : Options
deriving DecidableEq, Repr

/-- Embedding of `Builder::new`: the default options, copied field by field
from the source. -/
def Builder.new : Builder :=
  { options :=
    { max_size := 10
      min_size := 0
      connect_timeout := Duration.from_secs 60
      max_lifetime := some (Duration.from_secs 1800)
      idle_timeout := none
      test_on_acquire := true
      fair := true } }

/-- Embedding of the `Default` impl for `Builder`, which delegates to
`Builder::new`. -/
def Builder.default : Builder :=
  Builder.new

/-- Embedding of the `Builder::max_size` setter. -/
def Builder.max_size (self : Builder) (v : Nat) : Builder :=
  { self with options := { self.options with max_size := v } }

/-- Embedding of the `Builder::connect_timeout` setter. -/
def Builder.connect_timeout (self : Builder) (v : Duration) : Builder :=
  { self with options := { self.options with connect_timeout := v } }

/-- Embedding of the `Builder::min_size` setter. -/
def Builder.min_size (self : Builder) (v : Nat) : Builder :=
  { self with options := { self.options with min_size := v } }

/-- Embedding of the `Builder::max_lifetime` setter; the Rust argument is
`impl Into<Option<Duration>>`, embedded as the converted `Option Duration`. -/
def Builder.max_lifetime (self : Builder) (v : Option Duration) : Builder :=
  { self with options := { self.options with max_lifetime := v } }

/-- Embedding of the `Builder::idle_timeout` setter; the Rust argument is
`impl Into<Option<Duration>>`, embedded as the converted `Option Duration`. -/
def Builder.idle_timeout (self : Builder) (v : Option Duration) : Builder :=
  { self with options := { self.options with idle_timeout := v } }

/-- Embedding of the `Builder::test_on_acquire` setter. -/
def Builder.test_on_acquire (self : Builder) (v : Bool) : Builder :=
  { self with options := { self.options with test_on_acquire := v } }

/-- Embedding of the `Builder::fair` setter. -/
def Builder.fair (self : Builder) (v : Bool) : Builder :=
  { self with options := { self.options with fair := v } }

/-- The variants of `sqlx::Error` that the pool-construction path can
produce. `error.rs` is not among the source files; the variants are the
ones named by `Builder::build` (`ParseConnectOptions`) and by the
specification error taxonomy (`Configuration` for invalid option
combinations, `PoolTimedOut` for an exhausted deadline, `Connect` for a
network failure while opening a connection, `PoolClosed`). `PE` is the
driver-specific parse-error type wrapped by `ParseConnectOptions`. -/
inductive Error (PE : Type) where
  | Configuration : Error PE
  | ParseConnectOptions : PE → Error PE
  | PoolTimedOut : Error PE
  | Connect : Error PE
  | PoolClosed : Error PE
deriving DecidableEq, Repr

/-- Recognizer for the `Configuration` error variant on a build result. -/
def isConfigError {PE α : Type} : Except (Error PE) α → Bool
  | Except.error (Error.Configuration) => true
  | _ => false

/-- Modelled from the spec: the observable state of the Shared Pool
(`pool/inner.rs` is not among the source files). Section 4.4 gives build an
empty Idle Registry and a zero live count before warm-up; the live count is
idle count + checked-out count, and the closed flag is monotonic. -/
structure PoolState (Conn : Type) where
  idle : List Conn
  checked_out : Nat
  closed : Bool
deriving DecidableEq, Repr

/-- Modelled from the spec: the warm-up loop of pool construction
(section 4.4): `if min_size > 0`, synchronously opens `min_size`
connections, subject to `connect_timeout` for the whole warm-up (not
per-connection); any failure during warm-up fails the whole build and
tears down partially-opened connections.

`connect co i` is the external connection capability applied to attempt
number `i`; on success it yields the opened connection together with the
time (in nanoseconds) the attempt consumed. `warm_up connect co budget n i`
opens `n` connections starting at attempt `i`, returning the opened
connections together with the total elapsed time, or the first error. -/
def warm_up {ConnOpts Conn PE : Type}
    (connect : ConnOpts → Nat → Except (Error PE) (Conn × Nat))
    (co : ConnOpts) : Nat → Nat → Nat → Except (Error PE) (List Conn × Nat)
  | _, 0, _ => Except.ok ([], 0)
  | budget, n + 1, i =>
    match connect co i with
    | Except.error e => Except.error e
    | Except.ok (c, t) =>
      if budget < t then Except.error Error.PoolTimedOut
      else
        match warm_up connect co (budget - t) n (i + 1) with
        | Except.error e => Except.error e
        | Except.ok (cs, elapsed) => Except.ok (c :: cs, t + elapsed)

/-- Modelled from the spec: `SharedPool::new_arc` (`pool/inner.rs` is not
among the source files). Section 4.4: validates the config invariants
(`max_size ≥ 1` and `min_size ≤ max_size`, the invariants that section 3 states
for PoolConfig, rejected with a `Configuration` error per the section 7
taxonomy), constructs the Shared Pool with empty Idle Registry and zero
live count, and if `min_size > 0` synchronously opens `min_size`
connections before returning the handle; the freshly opened connections
are available in the pool (idle) when build resolves. The Reaper is a
background task with no effect on the returned state and is not
modelled. -/
def new_arc {ConnOpts Conn PE : Type}
    (connect : ConnOpts → Nat → Except (Error PE) (Conn × Nat))
    (co : ConnOpts) (options : Options) : Except (Error PE) (PoolState Conn) :=
  if options.min_size ≤ options.max_size ∧ 1 ≤ options.max_size then
    match warm_up connect co options.connect_timeout.toNanos options.min_size 0 with
    | Except.error e => Except.error e
    | Except.ok (conns, _) =>
      Except.ok { idle := conns, checked_out := 0, closed := false }
  else
    Except.error Error.Configuration

/-- Embedding of `Builder::build` (src/sqlx-core/src/pool/options.rs):
parses the url into connection options, wrapping a parse failure in
`Error::ParseConnectOptions`, then delegates to `SharedPool::new_arc`.
`parse` is the driver-specific `FromStr` instance for the connection
options, and `connect` the external connection capability. -/
def Builder.build {ConnOpts Conn PE : Type}
    (connect : ConnOpts → Nat → Except (Error PE) (Conn × Nat))
    (parse : String → Except PE ConnOpts)
    (self : Builder) (url : String) : Except (Error PE) (PoolState Conn) :=
  match parse url with
  | Except.error e => Except.error (Error.ParseConnectOptions e)
  | Except.ok o => new_arc connect o self.options

/-- Embedding of `Builder::build_with` (src/sqlx-core/src/pool/options.rs):
delegates to `SharedPool::new_arc` with the given connection options. -/
def Builder.build_with {ConnOpts Conn PE : Type}
    (connect : ConnOpts → Nat → Except (Error PE) (Conn × Nat))
    (self : Builder) (options : ConnOpts) : Except (Error PE) (PoolState Conn) :=
  new_arc connect options self.options

/-- Embedding of `StatementInfo<DB>` (src/sqlx-core/src/statement.rs),
generic over the per-database column descriptor and type-info types. The
Rust fields `columns`, `parameters` and `nullable` are the names of the
accessor methods too, so the fields carry a trailing underscore here. -/
structure StatementInfo (Column TypeInfo : Type) where
  columns_ : List Column
  parameters_ : Option (Sum (List TypeInfo) Nat)
  nullable_ : List (Option Bool)
deriving DecidableEq, Repr

/-- Embedding of `StatementInfo::column`: `&self.columns[index]`, which
panics when `index` is out of bounds. The panic is modelled by `none`. -/
def StatementInfo.column {C T : Type} (self : StatementInfo C T)
    (index : Nat) : Option C :=
  self.columns_.get? index

/-- Embedding of `StatementInfo::try_column`: `self.columns.get(index)`.
The returned `Option` is the Rust `Option`; the function is total (it
cannot panic). -/
def StatementInfo.try_column {C T : Type} (self : StatementInfo C T)
    (index : Nat) : Option C :=
  self.columns_.get? index

/-- Embedding of `StatementInfo::columns`: the full stored column list. -/
def StatementInfo.columns {C T : Type} (self : StatementInfo C T) : List C :=
  self.columns_

/-- Embedding of `StatementInfo::parameters`: maps the stored
`Option<Either<Vec<TypeInfo>, usize>>` through a match that rebuilds each
side (`Left` borrowing the list as a slice, `Right` copying the count). -/
def StatementInfo.parameters {C T : Type} (self : StatementInfo C T) :
    Option (Sum (List T) Nat) :=
  self.parameters_.map (fun p =>
    match p with
    | Sum.inl params => Sum.inl params
    | Sum.inr count => Sum.inr count)

/-- Embedding of `StatementInfo::nullable`:
`self.nullable.get(column).copied().and_then(identity)`. -/
def StatementInfo.nullable {C T : Type} (self : StatementInfo C T)
    (column : Nat) : Option Bool :=
  (self.nullable_.get? column).bind id

/-- C2: the builder returned by `Builder::new` (equivalently
`Builder::default`) carries exactly the documented default options:
max_size = 10, min_size = 0, connect_timeout = 60 seconds, max_lifetime =
Some(30 minutes), idle_timeout = None, test_on_acquire = true,
fair = true. -/
theorem builder_new_defaults :
    Builder.new.options.max_size = 10 ∧
    Builder.new.options.min_size = 0 ∧
    Builder.new.options.connect_timeout = Duration.from_secs 60 ∧
    Builder.new.options.max_lifetime = some (Duration.from_secs 1800) ∧
    Builder.new.options.idle_timeout = none ∧
    Builder.new.options.test_on_acquire = true ∧
    Builder.new.options.fair = true ∧
    Builder.default = Builder.new :=
  ⟨rfl, rfl, rfl, rfl, rfl, rfl, rfl, rfl⟩

/-- C7: every builder setter is a pure value transform: the returned
options of the returned builder equal the options of the input builder with only the one
named field replaced by the given value, all other fields unchanged. The
setters are total Lean functions on builder values, so no effect other
than producing the new value can occur. -/
theorem builder_setters_pure (b : Builder) (n m : Nat) (d : Duration)
    (l t : Option Duration) (x y : Bool) :
    (b.max_size n).options = { b.options with max_size := n } ∧
    (b.min_size m).options = { b.options with min_size := m } ∧
    (b.connect_timeout d).options = { b.options with connect_timeout := d } ∧
    (b.max_lifetime l).options = { b.options with max_lifetime := l } ∧
    (b.idle_timeout t).options = { b.options with idle_timeout := t } ∧
    (b.test_on_acquire x).options = { b.options with test_on_acquire := x } ∧
    (b.fair y).options = { b.options with fair := y } :=
  ⟨rfl, rfl, rfl, rfl, rfl, rfl, rfl⟩

/-- C3: `StatementInfo::column(index)` returns the index-th element of the
stored column list when `index` is strictly less than the number of
columns, and panics when `index` is greater than or equal to the number of
columns; the panic is modelled by the `none` result of the embedding. -/
theorem statement_column_spec {C T : Type} (s : StatementInfo C T) (i : Nat) :
    (∀ h : i < s.columns_.length, s.column i = some (s.columns_.get ⟨i, h⟩)) ∧
    (s.columns_.length ≤ i → s.column i = none) := by
  constructor
  · intro h
    exact List.get?_eq_get h
  · intro h
    exact List.get?_eq_none.mpr h

/-- Witness for C3 at a concrete statement: the in-bounds index 1 yields
the stored column 7, and the out-of-bounds index 5 panics (`none`). -/
theorem statement_column_spec_witness :
    (StatementInfo.mk [5, 7] none [] : StatementInfo Nat Unit).column 1 = some 7 ∧
    (StatementInfo.mk [5, 7] none [] : StatementInfo Nat Unit).column 5 = none :=
  ⟨(statement_column_spec (StatementInfo.mk [5, 7] none []) 1).1 (by decide),
   (statement_column_spec (StatementInfo.mk [5, 7] none []) 5).2 (by decide)⟩

/-- C4: `StatementInfo::try_column(index)` never panics (it is a total
function whose `Option` result is the Rust `Option`), returns `some` of
the index-th stored column — the same column `column(index)` returns —
exactly when `index` is strictly less than the number of columns, and
`none` otherwise. -/
theorem statement_try_column_spec {C T : Type} (s : StatementInfo C T) (i : Nat) :
    (∀ h : i < s.columns_.length,
      s.try_column i = some (s.columns_.get ⟨i, h⟩) ∧
      s.try_column i = s.column i) ∧
    (s.columns_.length ≤ i → s.try_column i = none) := by
  refine ⟨fun h => ⟨?_, rfl⟩, fun h => ?_⟩
  · exact List.get?_eq_get h
  · exact List.get?_eq_none.mpr h

/-- Witness for C4 at a concrete statement: index 0 is in bounds and
agrees with `column`, index 9 is out of bounds and yields `none`. -/
theorem statement_try_column_spec_witness :
    ((StatementInfo.mk [4] none [] : StatementInfo Nat Unit).try_column 0 = some 4 ∧
      (StatementInfo.mk [4] none [] : StatementInfo Nat Unit).try_column 0 =
        (StatementInfo.mk [4] none [] : StatementInfo Nat Unit).column 0) ∧
    (StatementInfo.mk [4] none [] : StatementInfo Nat Unit).try_column 9 = none :=
  ⟨(statement_try_column_spec (StatementInfo.mk [4] none []) 0).1 (by decide),
   (statement_try_column_spec (StatementInfo.mk [4] none []) 9).2 (by decide)⟩

/-- C5: for a column index within the bounds of the stored nullability
list, `StatementInfo::nullable(column)` reports the stored tri-state
exactly: `some true` when the column is known nullable, `some false` when
known non-nullable, `none` when nullability is unknown. -/
theorem statement_nullable_tri_state {C T : Type} (s : StatementInfo C T)
    (c : Nat) (h : c < s.nullable_.length) :
    (s.nullable_.get ⟨c, h⟩ = some true → s.nullable c = some true) ∧
    (s.nullable_.get ⟨c, h⟩ = some false → s.nullable c = some false) ∧
    (s.nullable_.get ⟨c, h⟩ = none → s.nullable c = none) := by
  have hget : s.nullable_.get? c = some (s.nullable_.get ⟨c, h⟩) :=
    List.get?_eq_get h
  refine ⟨fun he => ?_, fun he => ?_, fun he => ?_⟩ <;>
  · show (s.nullable_.get? c).bind id = _
    rw [hget, he]
    rfl

/-- Witness for C5 at a concrete statement holding all three tri-state
values: known nullable, known non-nullable and unknown are each reported
exactly. -/
theorem statement_nullable_tri_state_witness :
    (StatementInfo.mk [] none [some true, some false, none] :
      StatementInfo Unit Unit).nullable 0 = some true ∧
    (StatementInfo.mk [] none [some true, some false, none] :
      StatementInfo Unit Unit).nullable 1 = some false ∧
    (StatementInfo.mk [] none [some true, some false, none] :
      StatementInfo Unit Unit).nullable 2 = none :=
  ⟨(statement_nullable_tri_state
      (StatementInfo.mk [] none [some true, some false, none]) 0
      (by decide)).1 (by decide),
   (statement_nullable_tri_state
      (StatementInfo.mk [] none [some true, some false, none]) 1
      (by decide)).2.1 (by decide),
   (statement_nullable_tri_state
      (StatementInfo.mk [] none [some true, some false, none]) 2
      (by decide)).2.2 (by decide)⟩

/-- C6: `StatementInfo::parameters()` exactly reflects the stored
parameter information: `none` when no information was stored, a `Left`
list equal to the stored full type list when a type list was stored, and a
`Right` count equal to the stored bare count when only a count was
stored. -/
theorem statement_parameters_spec {C T : Type} (s : StatementInfo C T) :
    (s.parameters_ = none → s.parameters = none) ∧
    (∀ ts : List T, s.parameters_ = some (Sum.inl ts) →
      s.parameters = some (Sum.inl ts)) ∧
    (∀ n : Nat, s.parameters_ = some (Sum.inr n) →
      s.parameters = some (Sum.inr n)) := by
  refine ⟨fun h => ?_, fun ts h => ?_, fun n h => ?_⟩ <;>
    simp [StatementInfo.parameters, h]

/-- Witness for C6 at concrete statements covering all three stored
shapes of parameter information. -/
theorem statement_parameters_spec_witness :
    (StatementInfo.mk [] none [] : StatementInfo Unit Nat).parameters = none ∧
    (StatementInfo.mk [] (some (Sum.inl [3, 1])) [] :
      StatementInfo Unit Nat).parameters = some (Sum.inl [3, 1]) ∧
    (StatementInfo.mk [] (some (Sum.inr 2)) [] :
      StatementInfo Unit Nat).parameters = some (Sum.inr 2) :=
  ⟨(statement_parameters_spec (StatementInfo.mk [] none [])).1 rfl,
   (statement_parameters_spec
      (StatementInfo.mk [] (some (Sum.inl [3, 1])) [])).2.1 [3, 1] rfl,
   (statement_parameters_spec
      (StatementInfo.mk [] (some (Sum.inr 2)) [])).2.2 2 rfl⟩

/-- C10: `StatementInfo::nullable(index)` is total (the embedding is a
total Lean function; the underlying Rust chain `get`/`copied`/`and_then`
cannot panic), an out-of-bounds index yields `none`, and an in-bounds
column whose stored nullability is unknown also yields `none` — so the
two cases are indistinguishable through `nullable` alone. -/
theorem statement_nullable_total_oob {C T : Type} (s : StatementInfo C T)
    (i : Nat) :
    (s.nullable_.length ≤ i → s.nullable i = none) ∧
    (∀ h : i < s.nullable_.length,
      s.nullable_.get ⟨i, h⟩ = none → s.nullable i = none) := by
  constructor
  · intro h
    show (s.nullable_.get? i).bind id = none
    rw [List.get?_eq_none.mpr h]
    rfl
  · intro h he
    have hget : s.nullable_.get? i = some (s.nullable_.get ⟨i, h⟩) :=
      List.get?_eq_get h
    show (s.nullable_.get? i).bind id = none
    rw [hget, he]
    rfl

/-- Witness for C10 at a concrete statement: the out-of-bounds index 3 and
the in-bounds unknown-nullability index 0 both yield `none`. -/
theorem statement_nullable_total_oob_witness :
    (StatementInfo.mk [] none [none] : StatementInfo Unit Unit).nullable 3 = none ∧
    (StatementInfo.mk [] none [none] : StatementInfo Unit Unit).nullable 0 = none :=
  ⟨(statement_nullable_total_oob (StatementInfo.mk [] none [none]) 3).1 (by decide),
   (statement_nullable_total_oob (StatementInfo.mk [] none [none]) 0).2
      (by decide) (by decide)⟩

/-- Success analysis of the warm-up loop: when `warm_up` succeeds it has
opened exactly `n` connections, consumed at most `budget` nanoseconds in
total, and every one of the `n` connection attempts succeeded. -/
theorem warm_up_ok {ConnOpts Conn PE : Type}
    (connect : ConnOpts → Nat → Except (Error PE) (Conn × Nat))
    (co : ConnOpts) (n : Nat) :
    ∀ (budget i : Nat) (cs : List Conn) (elapsed : Nat),
      warm_up connect co budget n i = Except.ok (cs, elapsed) →
      cs.length = n ∧ elapsed ≤ budget ∧
        ∀ j, j < n → ∃ c t, connect co (i + j) = Except.ok (c, t) := by
  induction n with
  | zero =>
    intro budget i cs elapsed h
    simp only [warm_up] at h
    have h2 : ([] : List Conn) = cs ∧ 0 = elapsed := by simpa using h
    obtain ⟨rfl, rfl⟩ := h2
    exact ⟨rfl, Nat.zero_le _, fun j hj => absurd hj (Nat.not_lt_zero j)⟩
  | succ m ih =>
    intro budget i cs elapsed h
    simp only [warm_up] at h
    split at h
    next e hc => simp at h
    next c t hc =>
      split at h
      next hb => simp at h
      next hb =>
        split at h
        next e hw => simp at h
        next cs2 el2 hw =>
          have h2 : c :: cs2 = cs ∧ t + el2 = elapsed := by simpa using h
          obtain ⟨rfl, rfl⟩ := h2
          obtain ⟨hl, ht, hcn⟩ := ih (budget - t) (i + 1) cs2 el2 hw
          refine ⟨by simp [hl], ?_, ?_⟩
          · have hbt : t ≤ budget := Nat.le_of_not_lt hb
            omega
          · intro j hj
            cases j with
            | zero => exact ⟨c, t, by simpa using hc⟩
            | succ j2 =>
              obtain ⟨c2, t2, hc2⟩ := hcn j2 (Nat.lt_of_succ_lt_succ hj)
              refine ⟨c2, t2, ?_⟩
              have hidx : i + 1 + j2 = i + (j2 + 1) := by omega
              rw [← hidx]
              exact hc2

/-- An error value that is not a configuration error stays so at any
result type. -/
theorem isConfigError_error {PE α β : Type} (e : Error PE)
    (h : isConfigError (Except.error e : Except (Error PE) α) = false) :
    isConfigError (Except.error e : Except (Error PE) β) = false := by
  cases e
  case Configuration => simp [isConfigError] at h
  all_goals rfl

/-- The warm-up loop never reports a configuration error of its own: its
failures are those of the connection capability, plus the timeout. -/
theorem warm_up_not_config {ConnOpts Conn PE : Type}
    (connect : ConnOpts → Nat → Except (Error PE) (Conn × Nat))
    (co : ConnOpts)
    (hconn : ∀ x j, isConfigError (connect x j) = false) (n : Nat) :
    ∀ budget i, isConfigError (warm_up connect co budget n i) = false := by
  induction n with
  | zero =>
    intro budget i
    simp only [warm_up]
    rfl
  | succ m ih =>
    intro budget i
    simp only [warm_up]
    split
    next e hc =>
      have hx := hconn co i
      rw [hc] at hx
      exact isConfigError_error e hx
    next c t hc =>
      split
      · rfl
      next hb =>
        split
        next e hw =>
          have hx := ih (budget - t) (i + 1)
          rw [hw] at hx
          exact hx
        next cs el hw => rfl

/-- With a connection capability that never reports a configuration error,
`new_arc` reports a configuration error only for invalid options. -/
theorem new_arc_not_config {ConnOpts Conn PE : Type}
    (connect : ConnOpts → Nat → Except (Error PE) (Conn × Nat))
    (co : ConnOpts) (options : Options)
    (hconn : ∀ x j, isConfigError (connect x j) = false)
    (hv : options.min_size ≤ options.max_size ∧ 1 ≤ options.max_size) :
    isConfigError (new_arc connect co options) = false := by
  unfold new_arc
  rw [if_pos hv]
  split
  next e hw =>
    have hx := warm_up_not_config connect co hconn options.min_size
      options.connect_timeout.toNanos 0
    rw [hw] at hx
    exact isConfigError_error e hx
  next cs el hw => rfl

/-- C1: a builder whose options violate the config invariants
(min_size > max_size or max_size = 0) fails at build time with a
configuration error — for build_with unconditionally, and for build
whenever the url parses (a malformed url is reported as a parse error
before the options are examined); a builder whose options satisfy
min_size ≤ max_size and max_size ≥ 1 never fails with a configuration
error, provided the connection capability itself does not report one. -/
theorem build_config_error {ConnOpts Conn PE : Type}
    (connect : ConnOpts → Nat → Except (Error PE) (Conn × Nat))
    (parse : String → Except PE ConnOpts)
    (b : Builder) (o : ConnOpts) (url : String)
    (hconn : ∀ x j, isConfigError (connect x j) = false) :
    (¬ (b.options.min_size ≤ b.options.max_size ∧ 1 ≤ b.options.max_size) →
      Builder.build_with connect b o = Except.error Error.Configuration ∧
      ∀ o2, parse url = Except.ok o2 →
        Builder.build connect parse b url = Except.error Error.Configuration) ∧
    ((b.options.min_size ≤ b.options.max_size ∧ 1 ≤ b.options.max_size) →
      isConfigError (Builder.build_with connect b o) = false ∧
      isConfigError (Builder.build connect parse b url) = false) := by
  constructor
  · intro hinv
    have harc : ∀ x : ConnOpts, new_arc connect x b.options =
        (Except.error Error.Configuration : Except (Error PE) (PoolState Conn)) := by
      intro x
      unfold new_arc
      rw [if_neg hinv]
    constructor
    · exact harc o
    · intro o2 ho2
      unfold Builder.build
      rw [ho2]
      exact harc o2
  · intro hv
    constructor
    · exact new_arc_not_config connect o b.options hconn hv
    · unfold Builder.build
      cases hp : parse url with
      | error e => rfl
      | ok o2 => exact new_arc_not_config connect o2 b.options hconn hv

/-- Witness for C1: with the trivial connection capability, the default
builder with max_size set to 0 is rejected with a configuration error,
while the default builder (min_size 0, max_size 10) is not. -/
theorem build_config_error_witness :
    Builder.build_with (fun (_ : Unit) (_ : Nat) =>
        (Except.ok ((), 0) : Except (Error Unit) (Unit × Nat)))
      (Builder.new.max_size 0) () = Except.error Error.Configuration ∧
    isConfigError (Builder.build_with (fun (_ : Unit) (_ : Nat) =>
        (Except.ok ((), 0) : Except (Error Unit) (Unit × Nat)))
      Builder.new ()) = false :=
  ⟨((build_config_error (fun _ _ => Except.ok ((), 0))
      (fun _ => Except.ok ()) (Builder.new.max_size 0) () "urldb"
      (fun _ _ => rfl)).1 (by decide)).1,
   ((build_config_error (fun _ _ => Except.ok ((), 0))
      (fun _ => Except.ok ()) Builder.new () "urldb"
      (fun _ _ => rfl)).2 (by decide)).1⟩

/-- C8: when the connection string fails to parse, `Builder::build`
returns the parse failure wrapped in `ParseConnectOptions` and never
reaches pool construction; when the url parses, build proceeds exactly to
pool construction (`SharedPool::new_arc`) on the parsed options. -/
theorem build_parse_error {ConnOpts Conn PE : Type}
    (connect : ConnOpts → Nat → Except (Error PE) (Conn × Nat))
    (parse : String → Except PE ConnOpts) (b : Builder) (url : String) :
    (∀ e, parse url = Except.error e →
      Builder.build connect parse b url =
        Except.error (Error.ParseConnectOptions e)) ∧
    (∀ o, parse url = Except.ok o →
      Builder.build connect parse b url = new_arc connect o b.options) := by
  constructor
  · intro e he
    unfold Builder.build
    rw [he]
  · intro o ho
    unfold Builder.build
    rw [ho]

/-- Witness for C8: a parse function rejecting every url makes build
return the wrapped parse error, and an accepting parse function makes
build delegate to pool construction on the parsed options. -/
theorem build_parse_error_witness :
    Builder.build (fun (_ : Unit) (_ : Nat) =>
        (Except.ok ((), 0) : Except (Error Unit) (Unit × Nat)))
      (fun _ => Except.error ()) Builder.new "urldb" =
        Except.error (Error.ParseConnectOptions ()) ∧
    Builder.build (fun (_ : Unit) (_ : Nat) =>
        (Except.ok ((), 0) : Except (Error Unit) (Unit × Nat)))
      (fun _ => Except.ok ()) Builder.new "urldb" =
        new_arc (fun _ _ => Except.ok ((), 0)) () Builder.new.options :=
  ⟨(build_parse_error (fun _ _ => Except.ok ((), 0))
      (fun _ => Except.error ()) Builder.new "urldb").1 () rfl,
   (build_parse_error (fun _ _ => Except.ok ((), 0))
      (fun _ => Except.ok ()) Builder.new "urldb").2 () rfl⟩

/-- C9: when build_with succeeds with min_size = k > 0, the returned pool
already holds at least k live connections (idle plus checked out): the
warm-up opened exactly the idle connections of the pool within the
connect_timeout budget for the whole warm-up before the handle was
returned, and every one of the k connection attempts succeeded (a failure
would have failed the whole build). -/
theorem build_min_size_warm_up {ConnOpts Conn PE : Type}
    (connect : ConnOpts → Nat → Except (Error PE) (Conn × Nat))
    (b : Builder) (o : ConnOpts) (k : Nat) (p : PoolState Conn)
    (hk : b.options.min_size = k) (hpos : 0 < k)
    (hbuild : Builder.build_with connect b o = Except.ok p) :
    k ≤ p.idle.length + p.checked_out ∧
    (∀ j, j < k → ∃ c t, connect o j = Except.ok (c, t)) ∧
    (∃ elapsed, elapsed ≤ b.options.connect_timeout.toNanos ∧
      warm_up connect o b.options.connect_timeout.toNanos k 0 =
        Except.ok (p.idle, elapsed)) := by
  unfold Builder.build_with new_arc at hbuild
  by_cases hv : b.options.min_size ≤ b.options.max_size ∧ 1 ≤ b.options.max_size
  · rw [if_pos hv] at hbuild
    rw [hk] at hbuild
    cases hw : warm_up connect o b.options.connect_timeout.toNanos k 0 with
    | error e =>
      rw [hw] at hbuild
      simp at hbuild
    | ok ce =>
      obtain ⟨cs, el⟩ := ce
      rw [hw] at hbuild
      have hp : ({ idle := cs, checked_out := 0, closed := false } :
          PoolState Conn) = p := by
        simpa using hbuild
      obtain ⟨hl, ht, hcn⟩ := warm_up_ok connect o k
        b.options.connect_timeout.toNanos 0 cs el hw
      subst hp
      refine ⟨by simp [hl], ?_, el, ht, ?_⟩
      · intro j hj
        obtain ⟨c, t, hc⟩ := hcn j hj
        exact ⟨c, t, by simpa using hc⟩
      · rfl
  · rw [if_neg hv] at hbuild
    simp at hbuild

/-- Witness for C9: a pool built with min_size = 2 from an instantaneous
connection capability holds 2 live connections when build returns. -/
theorem build_min_size_warm_up_witness :
    2 ≤ (PoolState.mk [0, 1] 0 false : PoolState Nat).idle.length
      + (PoolState.mk [0, 1] 0 false : PoolState Nat).checked_out :=
  (build_min_size_warm_up
    (fun (_ : Unit) (i : Nat) =>
      (Except.ok (i, 0) : Except (Error Unit) (Nat × Nat)))
    (Builder.new.min_size 2) () 2 (PoolState.mk [0, 1] 0 false)
    rfl (by decide) rfl).1
